import Mathlib

/-!
Verification of the done-list accomplishment-tracking app's core logic:
the frequency-ranking suggestion engine (`FrequentAccomplishmentsService`),
the daily-view aggregation in the home screen, and the health source adapter.

The embedding mirrors the TypeScript source:
* `src/services/HealthService.ts` — `HealthService.generateAccomplishments`,
  `HealthService.generateMockAccomplishments`,
  `FrequentAccomplishmentsService.getFrequentAccomplishments`.
* the home screen — `allAccomplishments`, `deleteAccomplishment`,
  `saveHealthDataAsAccomplishments`, `saveRemindersAsAccomplishments`,
  `loadFrequentAccomplishments`, `fetchHealthData`.

Database rows of the `accomplishments` table are modelled as
`AccomplishmentRecord`; timestamps are `Nat` (milliseconds since epoch);
the Supabase query in `getFrequentAccomplishments` (filter by user,
`type <> questionnaire`, newest-first, limit 100) is modelled as a pure
function of the user's records given newest-first.

JavaScript plain objects preserve insertion order for their (non-integer)
string keys, so the `descriptionCounts` accumulator object is modelled as an
association list in first-occurrence order, and JavaScript's stable
`Array.prototype.sort` as a stable insertion sort.
-/

/-- The `type` column of an accomplishment row (the record's origin tag). -/
inductive Origin where
  | manual
  | health
  | todoist
  | reminders
  | questionnaire
deriving DecidableEq, Repr

/-- A row of the `accomplishments` table (see `src/types/accomplishment.ts`). -/
structure AccomplishmentRecord where
  id : String
  description : String
  type : Origin
  user_id : String
  created_at : Nat
deriving DecidableEq, Repr

/-- `FrequentAccomplishmentsService.FREQUENCY_THRESHOLD = 5`. -/
def FREQUENCY_THRESHOLD : Nat := 5

/-- One step of the `data.reduce` accumulator in `getFrequentAccomplishments`:
`acc[curr.description] = (acc[curr.description] || 0) + 1` on a plain object,
modelled on an association list kept in key-insertion order. -/
def bump : List (String × Nat) → String → List (String × Nat)
  | [], d => [(d, 1)]
  | (k, v) :: rest, d =>
      if k = d then (k, v + 1) :: rest else (k, v) :: bump rest d

/-- The `descriptionCounts` object: occurrence count per description,
entries in first-occurrence order (JavaScript object key order). -/
def descriptionCounts (descs : List String) : List (String × Nat) :=
  descs.foldl bump []

/-- Insert into a list sorted descending by `key`, after all elements of
greater-or-equal key: one step of a stable descending sort. -/
def insertByKeyDesc (key : α → Nat) : List α → α → List α
  | [], x => [x]
  | y :: ys, x =>
      if key y < key x then x :: y :: ys else y :: insertByKeyDesc key ys x

/-- Stable sort, descending by `key`: JavaScript's stable
`Array.prototype.sort` with comparator `(a, b) => key b - key a`. -/
def sortByKeyDesc (key : α → Nat) (l : List α) : List α :=
  l.foldl (insertByKeyDesc key) []

/-- The window the ranker counts over: the Supabase query
`eq user (implicit: input is one user's rows, newest-first)
.neq type questionnaire .order created_at desc .limit 100`. -/
def rankerWindow (history : List AccomplishmentRecord) : List AccomplishmentRecord :=
  (history.filter (fun r => r.type ≠ Origin.questionnaire)).take 100

/-- `getFrequentAccomplishments` up to (but not including) the final
`.map(([description]) => description)`: threshold-filter the counts, sort by
count descending, keep the top 5, still paired with their counts. -/
def frequentWithCounts (history : List AccomplishmentRecord) : List (String × Nat) :=
  let counts := descriptionCounts ((rankerWindow history).map (fun r => r.description))
  (sortByKeyDesc (fun p => p.2)
    (counts.filter (fun p => FREQUENCY_THRESHOLD ≤ p.2))).take 5

/-- `FrequentAccomplishmentsService.getFrequentAccomplishments`, as a function
of the user's accomplishment rows given newest-first. -/
def getFrequentAccomplishments (history : List AccomplishmentRecord) : List String :=
  (frequentWithCounts history).map (fun p => p.1)

/-- A shorthand record constructor for concrete instances. -/
def srec (d : String) (t : Origin) : AccomplishmentRecord :=
  { id := "", description := d, type := t, user_id := "u", created_at := 0 }

/-- Spec §8 scenario 8 evaluated: 6 laundry, 4 dinner, 5 exercise records
rank to exactly the two descriptions at or above the threshold, by count
descending. -/
theorem ranker_scenario_eight :
    getFrequentAccomplishments
      (List.replicate 6 (srec "Did laundry" Origin.manual) ++
       List.replicate 4 (srec "Cooked dinner" Origin.manual) ++
       List.replicate 5 (srec "Exercised" Origin.health)) =
      ["Did laundry", "Exercised"] := by decide

/-! ### Lemmas about the counting accumulator -/

/-- Reading a key off the counts object: `acc[d] || 0`. -/
def lookupCount : List (String × Nat) → String → Nat
  | [], _ => 0
  | (k, v) :: rest, d => if k = d then v else lookupCount rest d

theorem lookupCount_bump_self (l : List (String × Nat)) (d : String) :
    lookupCount (bump l d) d = lookupCount l d + 1 := by
  induction l with
  | nil => simp [bump, lookupCount]
  | cons p rest ih =>
      obtain ⟨k, v⟩ := p
      by_cases h : k = d <;> simp [bump, lookupCount, h, ih]

theorem lookupCount_bump_other (l : List (String × Nat)) (d e : String)
    (h : e ≠ d) : lookupCount (bump l d) e = lookupCount l e := by
  induction l with
  | nil =>
      have hd : d ≠ e := Ne.symm h
      simp [bump, lookupCount, hd]
  | cons p rest ih =>
      obtain ⟨k, v⟩ := p
      by_cases hk : k = d
      · have hke : k ≠ e := by
          intro hc
          exact h (hc ▸ hk)
        simp only [bump, if_pos hk, lookupCount]
        rw [if_neg hke, if_neg hke]
      · simp only [bump, if_neg hk, lookupCount]
        by_cases hke : k = e
        · rw [if_pos hke, if_pos hke]
        · rw [if_neg hke, if_neg hke, ih]

theorem lookupCount_foldl_bump (descs : List String) :
    ∀ acc d, lookupCount (descs.foldl bump acc) d = lookupCount acc d + descs.count d := by
  induction descs with
  | nil => simp
  | cons x xs ih =>
      intro acc d
      rw [List.foldl_cons, ih]
      by_cases h : x = d
      · subst h
        rw [lookupCount_bump_self]
        simp [List.count_cons]
        omega
      · rw [lookupCount_bump_other _ _ _ (Ne.symm h)]
        simp [List.count_cons, h, Ne.symm h]

theorem lookupCount_descriptionCounts (descs : List String) (d : String) :
    lookupCount (descriptionCounts descs) d = descs.count d := by
  simp [descriptionCounts, lookupCount_foldl_bump, lookupCount]

theorem map_fst_bump (l : List (String × Nat)) (d : String) :
    (bump l d).map Prod.fst =
      if d ∈ l.map Prod.fst then l.map Prod.fst else l.map Prod.fst ++ [d] := by
  induction l with
  | nil => simp [bump]
  | cons p rest ih =>
      obtain ⟨k, v⟩ := p
      by_cases hk : k = d
      · subst hk; simp [bump]
      · simp only [bump, if_neg hk, List.map_cons, ih, List.mem_cons]
        by_cases hd : d ∈ rest.map Prod.fst
        · simp [hd, Ne.symm hk]
        · simp [hd, Ne.symm hk]

theorem mem_map_fst_bump (l : List (String × Nat)) (d e : String) :
    e ∈ (bump l d).map Prod.fst ↔ e ∈ l.map Prod.fst ∨ e = d := by
  rw [map_fst_bump]
  by_cases hd : d ∈ l.map Prod.fst
  · rw [if_pos hd]
    constructor
    · exact Or.inl
    · rintro (h | rfl)
      · exact h
      · exact hd
  · rw [if_neg hd]
    simp [List.mem_append]

theorem nodup_map_fst_bump (l : List (String × Nat)) (d : String)
    (h : (l.map Prod.fst).Nodup) : ((bump l d).map Prod.fst).Nodup := by
  rw [map_fst_bump]
  by_cases hd : d ∈ l.map Prod.fst
  · rw [if_pos hd]; exact h
  · rw [if_neg hd]
    simp [List.nodup_append, h, hd]

theorem nodup_map_fst_foldl_bump (descs : List String) :
    ∀ acc : List (String × Nat), (acc.map Prod.fst).Nodup →
      ((descs.foldl bump acc).map Prod.fst).Nodup := by
  induction descs with
  | nil => intro acc h; simpa using h
  | cons x xs ih =>
      intro acc h
      exact ih (bump acc x) (nodup_map_fst_bump acc x h)

theorem nodup_map_fst_descriptionCounts (descs : List String) :
    ((descriptionCounts descs).map Prod.fst).Nodup :=
  nodup_map_fst_foldl_bump descs [] (by simp)

theorem lookupCount_of_mem (l : List (String × Nat)) (d : String) (c : Nat)
    (hnd : (l.map Prod.fst).Nodup) (h : (d, c) ∈ l) : lookupCount l d = c := by
  induction l with
  | nil => cases h
  | cons p rest ih =>
      obtain ⟨k, v⟩ := p
      simp only [List.map_cons, List.nodup_cons] at hnd
      rcases List.mem_cons.mp h with h | h
      · injection h with h1 h2
        subst h1; subst h2
        simp [lookupCount]
      · have hk : k ≠ d := fun he => by
          exact hnd.1 (he ▸ (List.mem_map.mpr ⟨(d, c), h, rfl⟩))
        simp [lookupCount, hk, ih hnd.2 h]

/-! ### Lemmas about the stable descending sort -/

theorem insertByKeyDesc_perm (key : α → Nat) (l : List α) (x : α) :
    (insertByKeyDesc key l x).Perm (x :: l) := by
  induction l with
  | nil => exact List.Perm.refl _
  | cons y ys ih =>
      by_cases h : key y < key x
      · simp only [insertByKeyDesc, if_pos h]
        exact List.Perm.refl _
      · simp only [insertByKeyDesc, if_neg h]
        exact (ih.cons y).trans (List.Perm.swap x y ys)

theorem foldl_insertByKeyDesc_perm (key : α → Nat) (l : List α) :
    ∀ acc : List α, (l.foldl (insertByKeyDesc key) acc).Perm (acc ++ l) := by
  induction l with
  | nil => intro acc; simp
  | cons x xs ih =>
      intro acc
      have h1 : (xs.foldl (insertByKeyDesc key) (insertByKeyDesc key acc x)).Perm
          (insertByKeyDesc key acc x ++ xs) := ih _
      have h2 : (insertByKeyDesc key acc x ++ xs).Perm ((x :: acc) ++ xs) :=
        (insertByKeyDesc_perm key acc x).append_right xs
      have h3 : ((x :: acc) ++ xs).Perm (acc ++ x :: xs) := List.perm_middle.symm
      exact (h1.trans h2).trans h3

theorem sortByKeyDesc_perm (key : α → Nat) (l : List α) :
    (sortByKeyDesc key l).Perm l := by
  simpa using foldl_insertByKeyDesc_perm key l []

theorem pairwise_insertByKeyDesc (key : α → Nat) (l : List α) (x : α)
    (h : l.Pairwise (fun a b => key b ≤ key a)) :
    (insertByKeyDesc key l x).Pairwise (fun a b => key b ≤ key a) := by
  induction l with
  | nil => simp [insertByKeyDesc]
  | cons y ys ih =>
      rw [List.pairwise_cons] at h
      by_cases hlt : key y < key x
      · simp only [insertByKeyDesc, if_pos hlt]
        refine List.pairwise_cons.mpr ⟨?_, List.pairwise_cons.mpr h⟩
        intro z hz
        rcases List.mem_cons.mp hz with rfl | hz
        · exact Nat.le_of_lt hlt
        · exact Nat.le_trans (h.1 z hz) (Nat.le_of_lt hlt)
      · simp only [insertByKeyDesc, if_neg hlt]
        refine List.pairwise_cons.mpr ⟨?_, ih h.2⟩
        intro z hz
        rcases List.mem_cons.mp ((insertByKeyDesc_perm key ys x).mem_iff.mp hz) with
          rfl | hz
        · exact Nat.le_of_not_lt hlt
        · exact h.1 z hz

theorem pairwise_sortByKeyDesc (key : α → Nat) (l : List α) :
    (sortByKeyDesc key l).Pairwise (fun a b => key b ≤ key a) := by
  have : ∀ (m : List α) (acc : List α),
      acc.Pairwise (fun a b => key b ≤ key a) →
      (m.foldl (insertByKeyDesc key) acc).Pairwise (fun a b => key b ≤ key a) := by
    intro m
    induction m with
    | nil => intro acc h; simpa using h
    | cons x xs ih =>
        intro acc h
        exact ih _ (pairwise_insertByKeyDesc key acc x h)
  exact this l [] (by simp)

/-! ### Claims C1 - C4: the Frequency Ranker -/

theorem mem_frequent_aux (descs : List String) (d : String)
    (hmem : d ∈ ((sortByKeyDesc (fun p => p.2)
      ((descriptionCounts descs).filter
        (fun p => FREQUENCY_THRESHOLD ≤ p.2))).take 5).map (fun p => p.1)) :
    FREQUENCY_THRESHOLD ≤ descs.count d := by
  obtain ⟨p, hp, rfl⟩ := List.mem_map.mp hmem
  have hp1 : p ∈ sortByKeyDesc (fun p => p.2)
      ((descriptionCounts descs).filter (fun p => FREQUENCY_THRESHOLD ≤ p.2)) :=
    List.mem_of_mem_take hp
  have hp2 : p ∈ (descriptionCounts descs).filter
      (fun p => FREQUENCY_THRESHOLD ≤ p.2) :=
    (sortByKeyDesc_perm _ _).mem_iff.mp hp1
  have hp3 := List.mem_filter.mp hp2
  have hth : FREQUENCY_THRESHOLD ≤ p.2 := of_decide_eq_true hp3.2
  have hcnt : lookupCount (descriptionCounts descs) p.1 = p.2 := by
    apply lookupCount_of_mem _ _ _ (nodup_map_fst_descriptionCounts descs)
    simpa using hp3.1
  rw [lookupCount_descriptionCounts] at hcnt
  omega

/-- C1: a description appearing fewer than `FREQUENCY_THRESHOLD = 5` times
among the most recent 100 non-questionnaire records never appears in the
output of `getFrequentAccomplishments`: every description in the returned
list occurs at least 5 times in the ranker window. -/
theorem frequent_output_meets_threshold (history : List AccomplishmentRecord)
    (d : String) (hmem : d ∈ getFrequentAccomplishments history) :
    FREQUENCY_THRESHOLD ≤
      ((rankerWindow history).map (fun r => r.description)).count d := by
  have hmem2 : d ∈ ((sortByKeyDesc (fun p => p.2)
      ((descriptionCounts ((rankerWindow history).map (fun r => r.description))).filter
        (fun p => FREQUENCY_THRESHOLD ≤ p.2))).take 5).map (fun p => p.1) := hmem
  exact mem_frequent_aux _ d hmem2

def c1History : List AccomplishmentRecord :=
  List.replicate 5 (srec "Walked the dog" Origin.manual)

/-- Witness for C1 at a concrete 5-record history. -/
theorem frequent_output_meets_threshold_witness :
    FREQUENCY_THRESHOLD ≤
      ((rankerWindow c1History).map (fun r => r.description)).count "Walked the dog" :=
  frequent_output_meets_threshold c1History "Walked the dog" (by decide)

theorem nodup_frequent_aux (descs : List String) :
    (((sortByKeyDesc (fun p => p.2)
      ((descriptionCounts descs).filter
        (fun p => FREQUENCY_THRESHOLD ≤ p.2))).take 5).map (fun p => p.1)).Nodup := by
  have h0 : ((descriptionCounts descs).map Prod.fst).Nodup :=
    nodup_map_fst_descriptionCounts descs
  have h1 : (((descriptionCounts descs).filter
      (fun p => FREQUENCY_THRESHOLD ≤ p.2)).map Prod.fst).Nodup :=
    ((List.filter_sublist _).map Prod.fst).nodup h0
  have h2 : ((sortByKeyDesc (fun p => p.2)
      ((descriptionCounts descs).filter
        (fun p => FREQUENCY_THRESHOLD ≤ p.2))).map Prod.fst).Nodup :=
    (((sortByKeyDesc_perm _ _).map Prod.fst).nodup_iff).mpr h1
  exact ((List.take_sublist 5 _).map Prod.fst).nodup h2

/-- C2: the output of `getFrequentAccomplishments` has at most 5 entries
(the `.slice(0, 5)` cap) and contains no duplicate description (the keys of
the `descriptionCounts` object are distinct). -/
theorem frequent_output_capped_and_nodup (history : List AccomplishmentRecord) :
    (getFrequentAccomplishments history).length ≤ 5 ∧
      (getFrequentAccomplishments history).Nodup := by
  constructor
  · simp only [getFrequentAccomplishments, frequentWithCounts, List.length_map,
      List.length_take]
    exact Nat.min_le_left _ _
  · exact nodup_frequent_aux ((rankerWindow history).map (fun r => r.description))

/-- C3: the entries of the ranker's output are sorted by descending
occurrence count (`frequentWithCounts` pairs each surviving description with
its count; `getFrequentAccomplishments` is its projection to descriptions),
and the ranking is deterministic: the same input always yields the same
output, tie order included, since the function is pure. -/
theorem frequent_output_sorted_and_deterministic (history : List AccomplishmentRecord) :
    getFrequentAccomplishments history = (frequentWithCounts history).map (fun p => p.1) ∧
    (frequentWithCounts history).Pairwise (fun a b => b.2 ≤ a.2) ∧
    getFrequentAccomplishments history = getFrequentAccomplishments history := by
  refine ⟨rfl, ?_, rfl⟩
  have hs := pairwise_sortByKeyDesc (fun p : String × Nat => p.2)
    ((descriptionCounts ((rankerWindow history).map (fun r => r.description))).filter
      (fun p => FREQUENCY_THRESHOLD ≤ p.2))
  exact List.Pairwise.sublist (List.take_sublist 5 _) hs

def c4History : List AccomplishmentRecord :=
  List.replicate 6 (srec "Went for a walk" Origin.manual) ++
  List.replicate 10 (srec "Did check-in" Origin.questionnaire)

/-- C4: questionnaire-origin records are excluded from the ranking input:
with 6 manual "Went for a walk" records and 10 questionnaire "Did check-in"
records, the output contains "Went for a walk" and not "Did check-in". -/
theorem questionnaire_records_excluded_example :
    "Went for a walk" ∈ getFrequentAccomplishments c4History ∧
    "Did check-in" ∉ getFrequentAccomplishments c4History := by decide

/-! ### The home screen: daily view aggregation, deletion, saving -/

/-- The pieces of `HomeScreen` component state the aggregation logic uses. -/
structure HomeState where
  accomplishments : List AccomplishmentRecord
  healthData : List AccomplishmentRecord
  remindersData : List AccomplishmentRecord
deriving DecidableEq, Repr

/-- The merged display list:
`[...accomplishments, ...healthData, ...remindersData]`. -/
def allAccomplishments (accomplishments healthData remindersData :
    List AccomplishmentRecord) : List AccomplishmentRecord :=
  accomplishments ++ healthData ++ remindersData

/-- A failed Supabase call (`error` non-null in the response). -/
structure StoreError where
  message : String
deriving DecidableEq, Repr

/-- `pat` matched at the front of the character list: JavaScript
`String.prototype.startsWith` on the decoded characters. -/
def startsWithChars : List Char → List Char → Bool
  | [], _ => true
  | _ :: _, [] => false
  | p :: ps, c :: cs => p == c && startsWithChars ps cs

/-- JavaScript `s.startsWith(pat)`. -/
def strStartsWith (s pat : String) : Bool :=
  startsWithChars pat.data s.data

/-- Result of one `deleteAccomplishment(id)` call: the component state and
backend table afterwards, and whether a Record Store delete was issued. -/
structure DeleteOutcome where
  state : HomeState
  store : List AccomplishmentRecord
  deleteCalled : Bool
deriving DecidableEq, Repr

/-- `deleteAccomplishment` from the home screen: ids starting with
`health-` are removed from the in-memory `healthData` only; any other id
goes to `supabase.from('accomplishments').delete().eq('id', id)` and, on
success, is filtered out of the `accomplishments` state (on error the alert
fires and no state changes). `storeOk` models whether that delete call
succeeds. -/
def deleteAccomplishment (id : String) (st : HomeState)
    (store : List AccomplishmentRecord) (storeOk : Bool) : DeleteOutcome :=
  if strStartsWith id "health-" then
    { state := { st with healthData := st.healthData.filter (fun item => item.id ≠ id) },
      store := store, deleteCalled := false }
  else if storeOk then
    { state := { st with accomplishments := st.accomplishments.filter (fun acc => acc.id ≠ id) },
      store := store.filter (fun r => r.id ≠ id), deleteCalled := true }
  else
    { state := st, store := store, deleteCalled := true }

/-- The Record Store's insert: rows are appended, with ids assigned by the
database at creation. -/
def insertRows (store rows : List AccomplishmentRecord) : List AccomplishmentRecord :=
  store ++ rows.enum.map (fun p => { p.2 with id := "db-" ++ toString (store.length + p.1) })

/-- `loadAccomplishments`: re-query today's rows of the current user,
newest-first. -/
def loadAccomplishments (store : List AccomplishmentRecord) (uid : String)
    (todayStart : Nat) : List AccomplishmentRecord :=
  sortByKeyDesc (fun r => r.created_at)
    (store.filter (fun r => r.user_id = uid ∧ todayStart ≤ r.created_at))

/-- Result of one save-as-accomplishments call. -/
structure SaveOutcome where
  state : HomeState
  store : List AccomplishmentRecord
  insertCalled : Bool
deriving DecidableEq, Repr

/-- `saveHealthDataAsAccomplishments`: if authenticated, bulk-insert the
current `healthData` as `health`-origin rows stamped with the current time,
then re-fetch today's accomplishments. The in-memory `healthData` list is
left as it was. On insert failure only the alert fires. -/
def saveHealthDataAsAccomplishments (st : HomeState)
    (store : List AccomplishmentRecord) (authed : Bool) (uid : String)
    (now todayStart : Nat) (insertOk : Bool) : SaveOutcome :=
  if !authed then { state := st, store := store, insertCalled := false }
  else
    let rows := st.healthData.map (fun acc =>
      { id := "", description := acc.description, type := Origin.health,
        user_id := uid, created_at := now })
    if insertOk then
      { state := { st with
          accomplishments := loadAccomplishments (insertRows store rows) uid todayStart },
        store := insertRows store rows, insertCalled := true }
    else
      { state := st, store := store, insertCalled := true }

/-- `saveRemindersAsAccomplishments`: like the health save, but over
`remindersData` with origin `reminders`, and on success the in-memory
reminders list is cleared (`setRemindersData([])`). -/
def saveRemindersAsAccomplishments (st : HomeState)
    (store : List AccomplishmentRecord) (authed : Bool) (uid : String)
    (now todayStart : Nat) (insertOk : Bool) : SaveOutcome :=
  if !authed then { state := st, store := store, insertCalled := false }
  else
    let rows := st.remindersData.map (fun acc =>
      { id := "", description := acc.description, type := Origin.reminders,
        user_id := uid, created_at := now })
    if insertOk then
      { state := { st with
          accomplishments := loadAccomplishments (insertRows store rows) uid todayStart,
          remindersData := [] },
        store := insertRows store rows, insertCalled := true }
    else
      { state := st, store := store, insertCalled := true }

/-! ### HealthService adapter, ranker error path, dropdown display filter -/

/-- Two decimal places: the model of `Number.prototype.toFixed(2)` applied to
a kilometre value carried in hundredths of a km (floating point is modelled
by exact hundredths; the claims below depend only on list shape, never on
the numeric text). -/
def formatKm2 (centiKm : Nat) : String :=
  toString (centiKm / 100) ++ "." ++
    (if centiKm % 100 < 10 then "0" ++ toString (centiKm % 100) else toString (centiKm % 100))

/-- `HealthService.generateMockAccomplishments`: three fabricated entries
from a random step count (`steps` stands for the random draw; distance and
calories are derived as in the source, `steps * 0.0008` km and
`steps * 0.05` kcal, carried as exact hundredths / floored naturals;
`toLocaleString` is modelled as plain decimal text). -/
def generateMockAccomplishments (steps : Nat) : List String :=
  ["Walked " ++ toString steps ++ " steps today",
   "Walked " ++ formatKm2 (steps * 8 / 100) ++ " km today",
   "Burned " ++ toString (steps * 5 / 100) ++ " active calories"]

/-- `HealthService.generateAccomplishments`: when HealthKit is unavailable
the mock list is returned; otherwise entries are built from the day's step,
distance and calorie readings, skipping zero values, and the mock list is
returned if all were zero. -/
def generateAccomplishments (available : Bool)
    (steps distanceCentiKm calories mockSteps : Nat) : List String :=
  if !available then generateMockAccomplishments mockSteps
  else
    let accomplishments :=
      (if 0 < steps then ["Walked " ++ toString steps ++ " steps today"] else []) ++
      (if 0 < distanceCentiKm then ["Walked " ++ formatKm2 distanceCentiKm ++ " km today"] else []) ++
      (if 0 < calories then ["Burned " ++ toString calories ++ " active calories"] else [])
    if accomplishments.isEmpty then generateMockAccomplishments mockSteps else accomplishments

/-- `fetchHealthData` in the home screen: only when the health integration is
connected in user settings and HealthKit is available are candidates
generated; each becomes a display-only record with synthetic id
`health-<index>`. -/
def fetchHealthData (healthConnected available : Bool)
    (steps distanceCentiKm calories mockSteps now : Nat) : List AccomplishmentRecord :=
  if healthConnected && available then
    (generateAccomplishments available steps distanceCentiKm calories mockSteps).enum.map
      (fun p => { id := "health-" ++ toString p.1, description := p.2,
                  type := Origin.health, user_id := "local", created_at := now })
  else []

/-- `getFrequentAccomplishments` including its error handling: a failed
Supabase query is rethrown inside the `try` and lands in the enclosing
`catch`, which logs and returns `[]` — the promise always resolves. -/
def getFrequentAccomplishmentsRun
    (query : Except StoreError (List AccomplishmentRecord)) :
    Except StoreError (List String) :=
  match query with
  | Except.error _ => Except.ok []
  | Except.ok history => Except.ok (getFrequentAccomplishments history)

/-- `pat` occurring somewhere in the character list: JavaScript
`String.prototype.includes` on the decoded characters. -/
def hasSubstrChars (pat : List Char) : List Char → Bool
  | [] => pat.isEmpty
  | c :: cs => startsWithChars pat (c :: cs) || hasSubstrChars pat cs

/-- JavaScript `s.includes(pat)`. -/
def containsSub (s pat : String) : Bool :=
  hasSubstrChars pat.data s.data

/-- JavaScript `s.toLowerCase()`, modelled characterwise (the filter patterns
are plain ASCII). -/
def toLowerStr (s : String) : String :=
  String.mk (s.data.map Char.toLower)

/-- The filtering step of `loadFrequentAccomplishments` in the home screen,
applied to the service's result before it is stored for the dropdown. -/
def loadFrequentAccomplishments (frequent : List String) : List String :=
  frequent.filter (fun acc =>
    !(containsSub (toLowerStr acc) "questionnaire") &&
    !(containsSub (toLowerStr acc) "check-in") &&
    !(containsSub (toLowerStr acc) "daily check-in") &&
    !(containsSub (toLowerStr acc) "check in"))

/-! ### Claims C5 - C7: the daily view -/

def recA : AccomplishmentRecord :=
  { id := "a1", description := "A", type := Origin.manual, user_id := "u", created_at := 300 }

def recB : AccomplishmentRecord :=
  { id := "b1", description := "B", type := Origin.manual, user_id := "u", created_at := 200 }

def recH1 : AccomplishmentRecord :=
  { id := "health-0", description := "H1", type := Origin.health, user_id := "local", created_at := 100 }

def recH2 : AccomplishmentRecord :=
  { id := "health-1", description := "H2", type := Origin.health, user_id := "local", created_at := 100 }

/-- C5: the merged display list is exactly persisted records, then health
candidates, then reminders candidates, concatenated with no re-sorting across
groups; in particular for persisted `[A, B]` and health candidates
`[H1, H2]` it is exactly `[A, B, H1, H2]`. -/
theorem daily_view_concat :
    (∀ accomplishments healthData remindersData : List AccomplishmentRecord,
      allAccomplishments accomplishments healthData remindersData =
        accomplishments ++ healthData ++ remindersData) ∧
    allAccomplishments [recA, recB] [recH1, recH2] [] = [recA, recB, recH1, recH2] :=
  ⟨fun _ _ _ => rfl, by decide⟩

def remCand : AccomplishmentRecord :=
  { id := "reminder-0", description := "Completed: Water plants",
    type := Origin.reminders, user_id := "local", created_at := 100 }

def c6State : HomeState :=
  { accomplishments := [], healthData := [], remindersData := [remCand] }

/-- C6 counterexample: deleting the adapter-only synthetic id `reminder-0`
of a not-yet-persisted reminders candidate issues a Record Store delete call
and leaves the candidate in the in-memory list, contradicting the claimed
dichotomy for synthetic ids. -/
theorem delete_reminder_candidate_counterexample :
    (deleteAccomplishment "reminder-0" c6State [] true).deleteCalled = true ∧
    remCand ∈ (deleteAccomplishment "reminder-0" c6State [] true).state.remindersData := by
  decide

/-- C6 amended: the dichotomy holds with "adapter-only synthetic id" narrowed
to the health adapter's `health-` ids. Deleting a `health-` id removes the
candidate from the in-memory `healthData` only and issues no Record Store
delete; deleting any other id (persisted records, but also `reminder-` ids)
issues a Record Store delete and, on success, removes the id from the store
and from the persisted part of the displayed list, leaving the candidate
lists untouched. -/
theorem delete_dichotomy (id : String) (st : HomeState)
    (store : List AccomplishmentRecord) (storeOk : Bool) :
    (strStartsWith id "health-" = true →
      deleteAccomplishment id st store storeOk =
        { state := { st with healthData := st.healthData.filter (fun item => item.id ≠ id) },
          store := store, deleteCalled := false }) ∧
    (strStartsWith id "health-" = false →
      (deleteAccomplishment id st store storeOk).deleteCalled = true ∧
      (storeOk = true →
        (deleteAccomplishment id st store storeOk).state.accomplishments =
          st.accomplishments.filter (fun acc => acc.id ≠ id) ∧
        (deleteAccomplishment id st store storeOk).store =
          store.filter (fun r => r.id ≠ id) ∧
        (deleteAccomplishment id st store storeOk).state.healthData = st.healthData ∧
        (deleteAccomplishment id st store storeOk).state.remindersData = st.remindersData) ∧
      (storeOk = false →
        (deleteAccomplishment id st store storeOk).state = st ∧
        (deleteAccomplishment id st store storeOk).store = store)) := by
  constructor
  · intro h
    simp [deleteAccomplishment, h]
  · intro h
    refine ⟨?_, ?_, ?_⟩
    · cases storeOk <;> simp [deleteAccomplishment, h]
    · rintro rfl
      simp [deleteAccomplishment, h]
    · rintro rfl
      simp [deleteAccomplishment, h]

def recP : AccomplishmentRecord :=
  { id := "42", description := "Read a book", type := Origin.manual,
    user_id := "u", created_at := 150 }

def hCand : AccomplishmentRecord :=
  { id := "health-0", description := "Walked 5000 steps today",
    type := Origin.health, user_id := "local", created_at := 100 }

def wDelState : HomeState :=
  { accomplishments := [recP], healthData := [hCand], remindersData := [] }

/-- Witness for the amended C6 theorem, at a health candidate id and at a
persisted id. -/
theorem delete_dichotomy_witness :
    (deleteAccomplishment "health-0" wDelState [recP] true).deleteCalled = false ∧
    (deleteAccomplishment "health-0" wDelState [recP] true).store = [recP] ∧
    (deleteAccomplishment "42" wDelState [recP] true).deleteCalled = true ∧
    (deleteAccomplishment "42" wDelState [recP] true).store = [] := by
  have h1 := (delete_dichotomy "health-0" wDelState [recP] true).1 (by decide)
  have h2 := (delete_dichotomy "42" wDelState [recP] true).2 (by decide)
  refine ⟨?_, ?_, h2.1, ?_⟩
  · rw [h1]
  · rw [h1]
  · rw [(h2.2.1 rfl).2.1]
    decide

def c7State : HomeState :=
  { accomplishments := [], healthData := [hCand], remindersData := [] }

/-- C7 counterexample: after a successful `saveHealthDataAsAccomplishments`
the health adapter's in-memory candidate list is unchanged, not empty. -/
theorem save_health_keeps_candidates_counterexample :
    (saveHealthDataAsAccomplishments c7State [] true "u" 100 0 true).state.healthData =
      [hCand] := by decide

/-- C7 amended: a successful reminders save bulk-inserts the reminders
candidates into the Record Store and clears the in-memory reminders list; a
successful health save bulk-inserts the health candidates but leaves the
in-memory health list as it was (only the reminders save removes its
candidates). -/
theorem save_adapter_behavior (st : HomeState) (store : List AccomplishmentRecord)
    (uid : String) (now todayStart : Nat) :
    ((saveRemindersAsAccomplishments st store true uid now todayStart true).state.remindersData
        = [] ∧
      (saveRemindersAsAccomplishments st store true uid now todayStart true).store =
        insertRows store (st.remindersData.map (fun acc =>
          { id := "", description := acc.description, type := Origin.reminders,
            user_id := uid, created_at := now }))) ∧
    ((saveHealthDataAsAccomplishments st store true uid now todayStart true).state.healthData
        = st.healthData ∧
      (saveHealthDataAsAccomplishments st store true uid now todayStart true).store =
        insertRows store (st.healthData.map (fun acc =>
          { id := "", description := acc.description, type := Origin.health,
            user_id := uid, created_at := now }))) :=
  ⟨⟨rfl, rfl⟩, ⟨rfl, rfl⟩⟩

/-! ### Claims C8 - C10: adapter fallback, error propagation, display filter -/

/-- C8 counterexample: with HealthKit unavailable the adapter fetch returns
the three-entry mock list — fabricated data, not an empty list. -/
theorem unavailable_adapter_mock_counterexample :
    generateAccomplishments false 0 0 0 5000 = generateMockAccomplishments 5000 ∧
    (generateAccomplishments false 0 0 0 5000).length = 3 ∧
    generateAccomplishments false 0 0 0 5000 ≠ [] := by decide

/-- C8 amended: when HealthKit is unavailable `generateAccomplishments`
returns the three fabricated mock entries rather than an empty list; an
unconnected adapter still contributes zero candidates to the daily view,
because `fetchHealthData` only generates candidates when the integration is
connected and available. -/
theorem unavailable_adapter_amended (healthConnected available : Bool)
    (steps distanceCentiKm calories mockSteps now : Nat) :
    (available = false →
      generateAccomplishments available steps distanceCentiKm calories mockSteps =
        generateMockAccomplishments mockSteps ∧
      (generateAccomplishments available steps distanceCentiKm calories mockSteps).length = 3) ∧
    (healthConnected = false →
      fetchHealthData healthConnected available steps distanceCentiKm calories mockSteps now
        = []) := by
  constructor
  · rintro rfl
    exact ⟨rfl, rfl⟩
  · rintro rfl
    rfl

/-- Witness for the amended C8 theorem at a disconnected, unavailable
adapter. -/
theorem unavailable_adapter_amended_witness :
    generateAccomplishments false 1000 80 50 3000 = generateMockAccomplishments 3000 ∧
    fetchHealthData false false 1000 80 50 3000 0 = [] := by
  have h := unavailable_adapter_amended false false 1000 80 50 3000 0
  exact ⟨(h.1 rfl).1, h.2 rfl⟩

/-- C9 counterexample: when the store query fails, `getFrequentAccomplishments`
resolves with the empty list — the `StoreError` is not surfaced to the
caller. -/
theorem ranker_error_not_surfaced_counterexample :
    getFrequentAccomplishmentsRun (Except.error { message := "network" }) =
      Except.ok [] := rfl

/-- C9 amended: `getFrequentAccomplishments` catches the Record Store query
failure internally (its `catch` logs and returns `[]`), so the caller
receives the empty suggestion list and never an error; on a successful query
it resolves with the ranked suggestions. -/
theorem ranker_error_swallowed (e : StoreError)
    (history : List AccomplishmentRecord) :
    getFrequentAccomplishmentsRun (Except.error e) = Except.ok [] ∧
    getFrequentAccomplishmentsRun (Except.ok history) =
      Except.ok (getFrequentAccomplishments history) :=
  ⟨rfl, rfl⟩

/-- C10: the displayed suggestion list is the ranker output further filtered
by description text — any suggestion whose lowercased description contains
"questionnaire", "check-in" or "check in" is removed before display, so such
a description never appears in the dropdown regardless of its count. -/
theorem display_filter_removes_checkin (history : List AccomplishmentRecord)
    (s : String)
    (h : containsSub (toLowerStr s) "questionnaire" = true ∨
         containsSub (toLowerStr s) "check-in" = true ∨
         containsSub (toLowerStr s) "check in" = true) :
    s ∉ loadFrequentAccomplishments (getFrequentAccomplishments history) := by
  intro hmem
  have hpred := (List.mem_filter.mp hmem).2
  simp only [Bool.and_eq_true, Bool.not_eq_true'] at hpred
  rcases h with h | h | h <;> simp [h] at hpred

def c10History : List AccomplishmentRecord :=
  List.replicate 5 (srec "Morning check in" Origin.manual)

/-- Witness for C10: "Morning check in" is a frequent manual description yet
never reaches the dropdown. -/
theorem display_filter_removes_checkin_witness :
    "Morning check in" ∉
      loadFrequentAccomplishments (getFrequentAccomplishments c10History) :=
  display_filter_removes_checkin c10History "Morning check in" (by decide)
